import Mathlib

/-!
Shallow embedding of the dose-volume reduction and radiobiological model
engine (files `dose_calculations.py`, `tcp_models.py`, `ntcp_models.py`).

Modelling conventions:
* Python floats are modelled by `ℝ`.  Overflow cannot occur in `ℝ`, so the
  bodies of the `try` blocks are total; the `except` handlers of the five
  NTCP model functions are embedded separately as explicit `..._on_overflow`
  functions (they are the code of the `except` branches, verbatim).
* numpy arrays are modelled by `List ℝ`; numpy operations that can raise
  (boolean-mask indexing, fancy indexing, `np.average` with incompatible
  weights) are modelled by `Except CalcError`.
* Python `**` on floats is modelled by `Real.rpow` (the `^` below on two
  real arguments).
* `float('inf')` in the therapeutic-ratio record is modelled by `EReal`.
-/

noncomputable section

open Real

/-- Error kinds of the engine, following the spec taxonomy (§7): the explicit
equal-length `ValueError` raised by the reducers is `shapeMismatch`, numpy
indexing failures are `indexError`, `np.average` weight-length failures are
`weightsMismatch`, `scipy.interpolate.interp1d` construction failures are
`valueError`, and the remaining constructors are the explicit `raise
ValueError` sites of the engines. -/
inductive CalcError
  | shapeMismatch
  | indexError
  | weightsMismatch
  | valueError
  | invalidFraction
  | unknownModel
  | unknownOrgan
  | unknownTumorType
  | missingParameter
  deriving DecidableEq

/-- `np.clip(x, 0, 1)`. -/
def clip01 (x : ℝ) : ℝ := min (max x 0) 1

/-- `np.sum`. -/
def npSum (l : List ℝ) : ℝ := l.sum

/-- `np.average(vals, weights)` on equal-length arrays:
`(Σ valsᵢ·weightsᵢ) / Σ weightsᵢ`. -/
def npAverage (vals weights : List ℝ) : ℝ :=
  (List.zipWith (· * ·) vals weights).sum / weights.sum

/-- `np.average(vals, weights)` including numpy's internal length check
(`ValueError: Length of weights not compatible`). -/
def npAverageE (vals weights : List ℝ) : Except CalcError ℝ :=
  if vals.length = weights.length then .ok (npAverage vals weights)
  else .error .weightsMismatch

/-- `np.max` of a nonempty array (numpy raises on an empty array; the claims
only use nonempty histograms, so the empty case is given a junk value 0). -/
def npMax : List ℝ → ℝ
  | [] => 0
  | x :: xs => xs.foldl max x

/-- `np.min` of a nonempty array (empty case: junk value 0, as for `npMax`). -/
def npMin : List ℝ → ℝ
  | [] => 0
  | x :: xs => xs.foldl min x

/-- `np.cumsum`. -/
def npCumsum (l : List ℝ) : List ℝ := (l.scanl (· + ·) 0).tail

/-- `np.argmin`: the first index at which the array attains its minimum
(numpy raises on an empty array; the empty case is given junk value 0). -/
def npArgmin : List ℝ → ℕ
  | [] => 0
  | [_] => 0
  | x :: y :: ys =>
    if (y :: ys).getD (npArgmin (y :: ys)) 0 < x then npArgmin (y :: ys) + 1
    else 0

/-- Boolean-mask selection `vals[mask]`: numpy raises `IndexError` when the
mask length differs from the array length. -/
def maskSelect (vals : List ℝ) (mask : List Bool) : Except CalcError (List ℝ) :=
  if vals.length = mask.length then
    .ok ((List.zip vals mask).filterMap fun p => if p.2 then some p.1 else none)
  else .error .indexError

/-- Integer fancy indexing `vals[idx]`: numpy raises `IndexError` when some
index is out of range. -/
def fancyIndex (vals : List ℝ) (idx : List ℕ) : Except CalcError (List ℝ) :=
  if idx.all fun i => i < vals.length then .ok (idx.map fun i => vals.getD i 0)
  else .error .indexError

/-- The error function `erf x = (2/√π)·∫₀ˣ exp(−t²) dt`, as computed by
`scipy.special.erf`. -/
def erf (x : ℝ) : ℝ :=
  (2 / Real.sqrt Real.pi) * ∫ t in (0:ℝ)..x, Real.exp (-t ^ 2)

/-- The standard-normal CDF `Φ`, via the error function, as the spec names it:
`Φ(x) = (1 + erf(x/√2))/2`.  Spec-side definition, used to compare the spec's
formulas with the code's. -/
def stdNormalCDF (x : ℝ) : ℝ := (1 + erf (x / Real.sqrt 2)) / 2

/-- `TCPModels.poisson_tcp` (tcp_models.py:15-32), `try` body:
`tcp = 1/(1+exp(-4·γ50·(dose-td50)/td50))`, clipped to `[0,1]`. -/
def poisson_tcp (dose td50 gamma50 : ℝ) : ℝ :=
  clip01 (1 / (1 + Real.exp (-4 * gamma50 * (dose - td50) / td50)))

/-- `TCPModels.linear_quadratic_tcp` (tcp_models.py:35-64): `n_fractions ≤ 0`
returns `0.0`; otherwise `tcp = 1 - exp(-α·dose - β·dose²)`, clipped.  The
source's locals `dose_per_fraction` and `bed` are computed but unused and are
omitted here; the unused `repair_time` argument is omitted as well. -/
def linear_quadratic_tcp (dose alpha beta : ℝ) (n_fractions : ℤ) : ℝ :=
  if n_fractions ≤ 0 then 0
  else clip01 (1 - Real.exp (-alpha * dose - beta * dose ^ 2))

/-- `TCPModels.webb_nahum_tcp` (tcp_models.py:67-90), `try` body:
`sf = exp(-ln 2·(dose/d50)^γ)`; `tcp = exp(-ρ·sf)`, clipped.  Python `**`
is modelled by `Real.rpow`. -/
def webb_nahum_tcp (dose d50 gamma clonogen_density : ℝ) : ℝ :=
  clip01 (Real.exp (-clonogen_density * Real.exp (-Real.log 2 * (dose / d50) ^ gamma)))

/-- `TCPModels.logistic_tcp` (tcp_models.py:93-109), `try` body:
`tcp = 1/(1+exp(-k·(dose-d50)))`, clipped. -/
def logistic_tcp (dose d50 k : ℝ) : ℝ :=
  clip01 (1 / (1 + Real.exp (-k * (dose - d50))))

/-- `NTCPModels.lyman_kutcher_burman` (ntcp_models.py:16-35), `try` body:
`t = (dose-td50)/(m·td50)`; `ntcp = 0.5·(1+erf(t/√2))`, clipped.  The
parameter `n` is accepted but unused, as in the source. -/
def lyman_kutcher_burman (dose td50 m n : ℝ) : ℝ :=
  clip01 (0.5 * (1 + erf ((dose - td50) / (m * td50) / Real.sqrt 2)))

/-- `NTCPModels.critical_volume_model` (ntcp_models.py:38-63), `try` body:
`volume_fraction < v50` returns `0.0`; else `effective_dose =
dose·(volume_fraction/v50)^γ`, `t = (effective_dose-d50)/d50`,
`ntcp = 0.5·(1+erf t)`, clipped. -/
def critical_volume_model (dose volume_fraction d50 v50 gamma : ℝ) : ℝ :=
  if volume_fraction < v50 then 0
  else clip01 (0.5 * (1 + erf ((dose * (volume_fraction / v50) ^ gamma - d50) / d50)))

/-- `NTCPModels.relative_seriality_model` (ntcp_models.py:66-95), `try` body:
`p_uniform = 0.5·(1+erf((dose-d50)/(γ·d50)))`; `s = 0` gives `p_uniform`;
`s = 1` gives `1-(1-p_uniform)^dose`; otherwise
`s·(1-(1-p_uniform)^dose) + (1-s)·p_uniform`; clipped. -/
def relative_seriality_model (dose d50 gamma s : ℝ) : ℝ :=
  let p_uniform := 0.5 * (1 + erf ((dose - d50) / (gamma * d50)))
  let ntcp :=
    if s = 0 then p_uniform
    else if s = 1 then 1 - (1 - p_uniform) ^ dose
    else s * (1 - (1 - p_uniform) ^ dose) + (1 - s) * p_uniform
  clip01 ntcp

/-- `NTCPModels.logistic_ntcp` (ntcp_models.py:98-114), `try` body:
`ntcp = 1/(1+exp(-k·(dose-d50)))`, clipped. -/
def logistic_ntcp (dose d50 k : ℝ) : ℝ :=
  clip01 (1 / (1 + Real.exp (-k * (dose - d50))))

/-- `NTCPModels.poisson_ntcp` (ntcp_models.py:117-134), `try` body:
`t = 2γ·(dose/d50 - 1)`; `ntcp = 0.5·(1+erf(t/√2))`, clipped. -/
def poisson_ntcp (dose d50 gamma : ℝ) : ℝ :=
  clip01 (0.5 * (1 + erf (2 * gamma * (dose / d50 - 1) / Real.sqrt 2)))

/-- The `except` handler of `lyman_kutcher_burman` (ntcp_models.py:34-35):
`return 0.0 if dose < td50 else 1.0`. -/
def lyman_kutcher_burman_on_overflow (dose td50 : ℝ) : ℝ :=
  if dose < td50 then 0 else 1

/-- The `except` handler of `critical_volume_model` (ntcp_models.py:62-63):
`return 0.0`, unconditionally.  The arguments are the function's dose and
threshold, kept for comparison with the other handlers. -/
def critical_volume_on_overflow (dose d50 : ℝ) : ℝ := 0

/-- The `except` handler of `relative_seriality_model` (ntcp_models.py:94-95):
`return 0.0`, unconditionally. -/
def relative_seriality_on_overflow (dose d50 : ℝ) : ℝ := 0

/-- The `except` handler of `logistic_ntcp` (ntcp_models.py:113-114):
`return 0.0 if dose < d50 else 1.0`. -/
def logistic_ntcp_on_overflow (dose d50 : ℝ) : ℝ :=
  if dose < d50 then 0 else 1

/-- The `except` handler of `poisson_ntcp` (ntcp_models.py:133-134):
`return 0.0 if dose < d50 else 1.0`. -/
def poisson_ntcp_on_overflow (dose d50 : ℝ) : ℝ :=
  if dose < d50 then 0 else 1

/-- Exponent argument of the EUD reducer: a Python float that may be
`float('inf')` or `float('-inf')`, as `np.isinf` and the `== -np.inf`
comparison in `calculate_equivalent_uniform_dose` distinguish them. -/
inductive AVal where
  | fin (x : ℝ)
  | pinf
  | minf

/-- Python `a_value == 0`. -/
def AVal.isZero : AVal → Bool
  | .fin x => decide (x = 0)
  | _ => false

/-- `np.isinf(a_value)`: true for both `+inf` and `-inf`. -/
def AVal.isinf : AVal → Bool
  | .pinf => true
  | .minf => true
  | .fin _ => false

/-- Python `a_value == -np.inf`. -/
def AVal.isNegInf : AVal → Bool
  | .minf => true
  | _ => false

/-- General-exponent arm of the EUD reducer (dose_calculations.py:222-226):
`(Σ wᵢ·doseᵢ^a)^(1/a)` via `np.average`; only reached with a finite exponent
(junk value 0 otherwise).  Over `ℝ` the `try` body is total, so the
`except` fallback (dose_calculations.py:227-231) is unreachable here. -/
def eudGeneral (dose fracs : List ℝ) : AVal → ℝ
  | .fin x => (npAverage (dose.map fun d => d ^ x) fracs) ^ (1 / x)
  | _ => 0

/-- `DoseCalculations.calculate_equivalent_uniform_dose`
(dose_calculations.py:192-233).  The branch chain is kept in source order:
`a == 0` (geometric mean with epsilon `1e-10`), then `np.isinf(a)` (max
dose), then `a == -np.inf` (min dose), then the general power mean. -/
def calculate_equivalent_uniform_dose (dose vol : List ℝ) (a : AVal) :
    Except CalcError ℝ :=
  if dose.length = vol.length then
    let volume_fractions := vol.map (· / vol.sum)
    .ok (
      if a.isZero then
        Real.exp (npAverage (dose.map fun d => Real.log (d + 1e-10)) volume_fractions)
      else if a.isinf then npMax dose
      else if a.isNegInf then npMin dose
      else eudGeneral dose volume_fractions a)
  else .error .shapeMismatch

/-- Record returned by `DoseCalculations.calculate_dose_statistics`. -/
structure DoseStats where
  mean_dose : ℝ
  median_dose : ℝ
  min_dose : ℝ
  max_dose : ℝ
  std_dose : ℝ
  dose_range : ℝ

/-- `DoseCalculations.calculate_dose_statistics` (dose_calculations.py:17-57). -/
def calculate_dose_statistics (dose vol : List ℝ) : Except CalcError DoseStats :=
  if dose.length = vol.length then
    let volume_normalized := vol.map fun v => v / vol.sum * 100
    let mean_dose := npAverage dose volume_normalized
    let cumulative_volume := npCumsum volume_normalized
    let median_idx := npArgmin (cumulative_volume.map fun c => |c - 50|)
    let variance := npAverage (dose.map fun d => (d - mean_dose) ^ 2) volume_normalized
    .ok ⟨mean_dose, dose.getD median_idx 0, npMin dose, npMax dose,
      Real.sqrt variance, npMax dose - npMin dose⟩
  else .error .shapeMismatch

/-- Stable insertion of index `i` into an index list sorted ascending by
`key` (helper for `argsortAsc`). -/
def insertIdx (key : ℕ → ℝ) (i : ℕ) : List ℕ → List ℕ
  | [] => [i]
  | j :: js => if key i ≤ key j then i :: j :: js else j :: insertIdx key i js

/-- `np.argsort` (ascending), modelled as a stable insertion sort of the
index list by the keyed values.  numpy's default quicksort agrees on
distinct values; tie order is unspecified in numpy and no claim depends
on it. -/
def argsortAsc (key : ℕ → ℝ) : List ℕ → List ℕ
  | [] => []
  | i :: is => insertIdx key i (argsortAsc key is)

/-- `scipy.interpolate.interp1d(xs, ys, kind='linear')` evaluated at `x`,
on the zipped point list, with linear extrapolation outside the range
(`fill_value='extrapolate'`); assumes at least one point (0 on no points). -/
def interpLinear : List (ℝ × ℝ) → ℝ → ℝ
  | [], _ => 0
  | [(_, y0)], _ => y0
  | (x0, y0) :: (x1, y1) :: [], x => y0 + (y1 - y0) * (x - x0) / (x1 - x0)
  | (x0, y0) :: (x1, y1) :: p :: rest, x =>
    if x ≤ x1 then y0 + (y1 - y0) * (x - x0) / (x1 - x0)
    else interpLinear ((x1, y1) :: p :: rest) x

/-- Loop body of `calculate_dx_values` over the requested percentiles:
a percentile above the last normalized cumulative volume yields `0.0`;
otherwise the dose is linearly interpolated (`interp1d` raises when built
on fewer than two points). -/
def dxLoop (cumn sorted_doses : List ℝ) : List ℝ → Except CalcError (List ℝ)
  | [] => .ok []
  | p :: ps =>
    (if p ≤ (cumn.getLast?).getD 0 then
        if cumn.length < 2 then Except.error CalcError.valueError
        else Except.ok (interpLinear (cumn.zip sorted_doses) p)
      else Except.ok 0) >>= fun v =>
    dxLoop cumn sorted_doses ps >>= fun rest =>
    pure (v :: rest)

/-- `DoseCalculations.calculate_dx_values` (dose_calculations.py:60-95):
sort by descending dose (`np.argsort(dose)[::-1]` with fancy indexing of
both arrays), normalize the cumulative volume to 100 (indexing `[-1]`
raises on an empty array), then interpolate each percentile. -/
def calculate_dx_values (dose vol : List ℝ) (percentiles : List ℝ) :
    Except CalcError (List ℝ) := do
  let idx := (argsortAsc (fun i => dose.getD i 0) (List.range dose.length)).reverse
  let sorted_doses ← fancyIndex dose idx
  let sorted_volumes ← fancyIndex vol idx
  match (npCumsum sorted_volumes).getLast? with
  | none => .error .indexError
  | some last =>
    dxLoop ((npCumsum sorted_volumes).map fun c => c / last * 100)
      sorted_doses percentiles

/-- Loop body of `calculate_vx_values`: for each dose level, sum the volume
over the bins with `dose ≥ level` (boolean-mask selection). -/
def vxLoop (dose vol : List ℝ) : List ℝ → Except CalcError (List ℝ)
  | [] => .ok []
  | lv :: lvs => do
    let sel ← maskSelect vol (dose.map fun d => decide (lv ≤ d))
    let rest ← vxLoop dose vol lvs
    pure (sel.sum :: rest)

/-- `DoseCalculations.calculate_vx_values` (dose_calculations.py:98-118).
There is no equal-length validation in the source; a length mismatch
surfaces as numpy's boolean-mask `IndexError`. -/
def calculate_vx_values (dose vol : List ℝ) (dose_levels : List ℝ) :
    Except CalcError (List ℝ) :=
  vxLoop dose vol dose_levels

/-- `DoseCalculations.calculate_conformity_index` (dose_calculations.py:121-158),
reduced to its `coverage` output (the other dict fields are echoes of the
inputs). -/
def calculate_conformity_index (dose vol : List ℝ) (prescription_dose tolerance : ℝ) :
    Except CalcError ℝ := do
  let covered ← maskSelect vol (dose.map fun d =>
    decide (prescription_dose * (1 - tolerance) ≤ d) &&
    decide (d ≤ prescription_dose * (1 + tolerance)))
  pure (if 0 < vol.sum then covered.sum / vol.sum else 0)

/-- `DoseCalculations.calculate_homogeneity_index` (dose_calculations.py:161-189),
reduced to the `homogeneity_index` output: `(D5 - D95)/meanDose` with mean
dose from `np.average(dose, weights=vol)` (which itself checks weight
lengths), 0 when the mean is not positive. -/
def calculate_homogeneity_index (dose vol : List ℝ) : Except CalcError ℝ := do
  let dx ← calculate_dx_values dose vol [5, 95]
  let mean_dose ← npAverageE dose vol
  pure (if 0 < mean_dose then (dx.getD 0 0 - dx.getD 1 0) / mean_dose else 0)

/-- `DoseCalculations.interpolate_dvh` (dose_calculations.py:289-314): sort
by ascending dose, then interpolate with boundary clamping
(`bounds_error=False, fill_value=(sv[0], sv[-1])`); `interp1d` raises when
built on fewer than two points. -/
def interpolate_dvh (dose vol new_dose : List ℝ) : Except CalcError (List ℝ) := do
  let idx := argsortAsc (fun i => dose.getD i 0) (List.range dose.length)
  let sd ← fancyIndex dose idx
  let sv ← fancyIndex vol idx
  if sv.length < 2 then .error .valueError
  else
    .ok (new_dose.map fun x =>
      if x < sd.getD 0 0 then sv.getD 0 0
      else if (sd.getLast?).getD 0 < x then (sv.getLast?).getD 0
      else interpLinear (sd.zip sv) x)

/-- `DoseCalculations.calculate_biological_effective_dose`
(dose_calculations.py:236-286), reduced to its basic-BED output with the
default `dose_rate=None` path (`bed_corrected = bed_basic`):
fails with `InvalidFraction` when `n_fractions ≤ 0`, otherwise
`BED = dose·(1 + (dose/n)/ (α/β))`. -/
def calculate_biological_effective_dose (dose alpha_beta_ratio : ℝ)
    (n_fractions : ℤ) : Except CalcError ℝ :=
  if n_fractions ≤ 0 then .error .invalidFraction
  else .ok (dose * (1 + dose / (n_fractions : ℝ) / alpha_beta_ratio))

/-- A tumor-type registry entry (`TCPCalculator.__init__`, tcp_models.py:115-122). -/
structure TumorParams where
  td50 : ℝ
  gamma50 : ℝ
  alpha : ℝ
  beta : ℝ

/-- The seeded tumor registry (tcp_models.py:116-122). -/
def tumor_parameters : List (String × TumorParams) :=
  [("prostate", ⟨70, 2.0, 0.15, 0.05⟩),
   ("lung", ⟨60, 1.8, 0.18, 0.04⟩),
   ("breast", ⟨50, 2.2, 0.20, 0.05⟩),
   ("head_neck", ⟨65, 2.5, 0.25, 0.06⟩),
   ("rectum", ⟨55, 1.9, 0.16, 0.04⟩)]

/-- The string dispatch on the TCP model name inside the per-bin loop of
`calculate_tcp_from_dvh` (tcp_models.py:149-158): `lq` is called without
`n_fractions` (default 1), `webb_nahum` without `clonogen_density`
(default `1e7`). -/
def tcpModelValue (model : String) (p : TumorParams) (dose : ℝ) : Except CalcError ℝ :=
  if model = "poisson" then .ok (poisson_tcp dose p.td50 p.gamma50)
  else if model = "lq" then .ok (linear_quadratic_tcp dose p.alpha p.beta 1)
  else if model = "webb_nahum" then .ok (webb_nahum_tcp dose p.td50 p.gamma50 (10 ^ 7))
  else if model = "logistic" then .ok (logistic_tcp dose p.td50 p.gamma50)
  else .error .unknownModel

/-- Total version of `tcpModelValue` on the four supported model names
(junk value 0 otherwise), used to state results about successful runs. -/
def tcpModelFn (model : String) (p : TumorParams) (dose : ℝ) : ℝ :=
  if model = "poisson" then poisson_tcp dose p.td50 p.gamma50
  else if model = "lq" then linear_quadratic_tcp dose p.alpha p.beta 1
  else if model = "webb_nahum" then webb_nahum_tcp dose p.td50 p.gamma50 (10 ^ 7)
  else if model = "logistic" then logistic_tcp dose p.td50 p.gamma50
  else 0

/-- The supported TCP model names of the dispatch. -/
def supported_tcp_models : List String := ["poisson", "lq", "webb_nahum", "logistic"]

/-- The per-bin loop of `calculate_tcp_from_dvh` (tcp_models.py:146-160):
`volume_percent[i]` is read first (an out-of-range index raises), then the
model value is computed and the weighted term `tcp·(volume_percent[i]/100)`
is appended. -/
def tcpLoop (model : String) (p : TumorParams) : List ℝ → List ℝ → Except CalcError (List ℝ)
  | [], _ => .ok []
  | _ :: _, [] => .error .indexError
  | d :: ds, v :: vs => do
    let mv ← tcpModelValue model p d
    let rest ← tcpLoop model p ds vs
    pure ((mv * (v / 100)) :: rest)

/-- Record returned by `calculate_tcp_from_dvh` (tcp_models.py:173-182),
without the echo fields (`model_used`, `tumor_type`, `parameters`). -/
structure TCPResult where
  total_tcp : ℝ
  mean_tcp : ℝ
  tcp_d95 : ℝ
  tcp_d50 : ℝ
  tcp_values : List ℝ

/-- `TCPCalculator.calculate_tcp_from_dvh` (tcp_models.py:124-182).
`np.mean` of an empty list is modelled as `0/0 = 0` (numpy yields `nan`
with a warning); `np.argmin` of an empty list is junk 0 (numpy raises);
the claims use nonempty histograms. -/
def calculate_tcp_from_dvh (dose vol : List ℝ) (tumor_type model : String) :
    Except CalcError TCPResult :=
  match tumor_parameters.lookup tumor_type with
  | none => .error .unknownTumorType
  | some p => do
    let tcp_values ← tcpLoop model p dose vol
    let d95_index := npArgmin (vol.map fun v => |v - 95|)
    let d50_index := npArgmin (vol.map fun v => |v - 50|)
    pure ⟨tcp_values.sum, tcp_values.sum / tcp_values.length,
      if d95_index < tcp_values.length then tcp_values.getD d95_index 0 else 0,
      if d50_index < tcp_values.length then tcp_values.getD d50_index 0 else 0,
      tcp_values⟩

/-- An organ registry entry (`NTCPCalculator.__init__`, ntcp_models.py:141-174). -/
structure OrganParams where
  td50 : ℝ
  m : ℝ
  n : ℝ
  d50 : ℝ
  gamma : ℝ
  endpoint : String
  seriality : ℝ

/-- The seeded organ registry (ntcp_models.py:141-174). -/
def organ_parameters : List (String × OrganParams) :=
  [("lung", ⟨24.5, 0.18, 0.87, 20, 1.0, "pneumonitis", 0.0⟩),
   ("heart", ⟨48, 0.16, 0.35, 45, 1.2, "pericarditis", 0.5⟩),
   ("spinal_cord", ⟨66.5, 0.175, 0.05, 60, 1.5, "myelitis", 1.0⟩),
   ("rectum", ⟨76.9, 0.15, 0.12, 70, 1.0, "bleeding", 0.3⟩),
   ("bladder", ⟨80, 0.11, 0.5, 75, 1.1, "contracture", 0.2⟩),
   ("kidney", ⟨28, 0.1, 0.87, 25, 0.8, "nephritis", 0.0⟩),
   ("liver", ⟨40, 0.12, 0.97, 35, 0.9, "hepatitis", 0.1⟩),
   ("parotid", ⟨46, 0.4, 0.7, 40, 1.3, "xerostomia", 0.0⟩)]

/-- `NTCPCalculator._calculate_eud` (ntcp_models.py:245-278): equal-length
check, then `n = 0` gives the weighted mean, otherwise
`(Σ wᵢ·doseᵢ^(1/n))^n`.  `np.isinf(n)` is false for every real `n` and the
`try` body is total over `ℝ`, so those branches are not taken here. -/
def ntcp_calculate_eud (dose vol : List ℝ) (n : ℝ) : Except CalcError ℝ :=
  if dose.length = vol.length then
    let volume_fractions := vol.map (· / vol.sum)
    .ok (if n = 0 then npAverage dose volume_fractions
      else (npAverage (dose.map fun d => d ^ (1 / n)) volume_fractions) ^ n)
  else .error .shapeMismatch

/-- `NTCPCalculator.calculate_ntcp_from_dvh` (ntcp_models.py:176-243),
reduced to its `ntcp` output: per-model reduction of the DVH followed by
the model function.  The critical-volume branch (lines 200-205) passes the
constant `0.5` as `v50` and `Σ volume_percent[dose > d50] / 100` as the
volume fraction. -/
def calculate_ntcp_from_dvh (dose vol : List ℝ) (organ model : String) :
    Except CalcError ℝ :=
  match organ_parameters.lookup organ with
  | none => .error .unknownOrgan
  | some p =>
    if model = "lkb" then
      (ntcp_calculate_eud dose vol p.n).map fun eud =>
        lyman_kutcher_burman eud p.td50 p.m p.n
    else if model = "critical_volume" then
      (maskSelect vol (dose.map fun d => decide (p.d50 < d))).map fun va =>
        critical_volume_model (npMax dose) (va.sum / 100) p.d50 0.5 p.gamma
    else if model = "relative_seriality" then
      (npAverageE dose vol).map fun md =>
        relative_seriality_model md p.d50 p.gamma p.seriality
    else if model = "logistic" then
      (npAverageE dose vol).map fun md => logistic_ntcp md p.d50 p.gamma
    else if model = "poisson" then
      (npAverageE dose vol).map fun md => poisson_ntcp md p.d50 p.gamma
    else .error .unknownModel

/-- `NTCPCalculator.calculate_ntcp_uniform_dose` (ntcp_models.py:280-319),
reduced to its `ntcp` output.  The critical-volume branch (line 301) passes
volume fraction `1.0` and `v50 = 0.5`. -/
def calculate_ntcp_uniform_dose (dose : ℝ) (organ model : String) :
    Except CalcError ℝ :=
  match organ_parameters.lookup organ with
  | none => .error .unknownOrgan
  | some p =>
    if model = "lkb" then .ok (lyman_kutcher_burman dose p.td50 p.m p.n)
    else if model = "critical_volume" then
      .ok (critical_volume_model dose 1.0 p.d50 0.5 p.gamma)
    else if model = "relative_seriality" then
      .ok (relative_seriality_model dose p.d50 p.gamma p.seriality)
    else if model = "logistic" then .ok (logistic_ntcp dose p.d50 p.gamma)
    else if model = "poisson" then .ok (poisson_ntcp dose p.d50 p.gamma)
    else .error .unknownModel

/-- A value of a Python parameter dict entry (a float or a string), for the
key-validation view of the registries used by `add_organ_parameters`. -/
inductive ParamValue where
  | num (x : ℝ)
  | str (s : String)

/-- A Python parameter dict, as the mapping supplied to
`add_organ_parameters`: keys with their values, missing keys absent. -/
abbrev ParamDict := List (String × ParamValue)

/-- The `required_params` list of `add_organ_parameters`
(ntcp_models.py:329).  Note it does not include `seriality`. -/
def required_params : List String := ["td50", "m", "n", "d50", "gamma", "endpoint"]

/-- `NTCPCalculator.add_organ_parameters` (ntcp_models.py:321-336): raise
`MissingParameter` when any required key is absent, otherwise store the
supplied mapping as the organ's registry entry (modelled by prepending,
so that lookup finds the new entry). -/
def add_organ_parameters (registry : List (String × ParamDict)) (organ : String)
    (parameters : ParamDict) : Except CalcError (List (String × ParamDict)) :=
  if required_params.all fun k => (parameters.lookup k).isSome then
    .ok ((organ, parameters) :: registry)
  else .error .missingParameter

/-- Record returned by `calculate_therapeutic_ratio` (ntcp_models.py:376-382),
without the echo fields; the two ratios are extended reals because the code
uses `float('inf')` when `ntcp_total > 0` fails. -/
structure TherapeuticRatioResult where
  uncomplicated_cure_probability : ℝ
  therapeutic_ratio_1 : EReal
  therapeutic_ratio_2 : EReal

/-- `NTCPCalculator.calculate_therapeutic_ratio` (ntcp_models.py:358-382):
`ucp = tcp·(1-ntcp_total)`; each ratio is the quotient when
`ntcp_total > 0` and `float('inf')` otherwise. -/
def calculate_therapeutic_ratio (tcp ntcp_total : ℝ) : TherapeuticRatioResult :=
  ⟨tcp * (1 - ntcp_total),
   if 0 < ntcp_total then ((tcp / ntcp_total : ℝ) : EReal) else ⊤,
   if 0 < ntcp_total then ((tcp * (1 - ntcp_total) / ntcp_total : ℝ) : EReal) else ⊤⟩

/-- `NTCPCalculator.calculate_complication_free_probability`
(ntcp_models.py:342-356): the product of `(1 - ntcpᵢ)`. -/
def calculate_complication_free_probability (ntcps : List ℝ) : ℝ :=
  ntcps.foldl (fun cfp x => cfp * (1 - x)) 1
/-- Modelled from the spec (amended for C2): the relative-seriality body with
`p = Φ(√2·(dose−d50)/(γ·d50))`, written with the spec's `Φ`
(`stdNormalCDF`); the branch structure is the spec's. -/
def specRelativeSeriality (dose d50 gamma s : ℝ) : ℝ :=
  let p := stdNormalCDF (Real.sqrt 2 * ((dose - d50) / (gamma * d50)))
  if s = 0 then p
  else if s = 1 then 1 - (1 - p) ^ dose
  else s * (1 - (1 - p) ^ dose) + (1 - s) * p

/-- A parameter mapping holding exactly the six keys of `required_params`
and no `seriality` key. -/
def params_six : ParamDict :=
  [("td50", .num 1), ("m", .num 1), ("n", .num 1), ("d50", .num 1),
   ("gamma", .num 1), ("endpoint", .str "fibrosis")]

theorem clip01_nonneg (x : ℝ) : 0 ≤ clip01 x := by
  simp only [clip01, le_min_iff]
  constructor
  · exact le_max_right x 0
  · exact zero_le_one

theorem clip01_le_one (x : ℝ) : clip01 x ≤ 1 := min_le_right _ _

theorem clip01_mono : Monotone clip01 := fun _ _ h =>
  min_le_min (max_le_max h le_rfl) le_rfl

theorem clip01_of_mem {x : ℝ} (h0 : 0 ≤ x) (h1 : x ≤ 1) : clip01 x = x := by
  simp only [clip01, max_eq_left h0, min_eq_left h1]

theorem erf_zero : erf 0 = 0 := by
  simp [erf]

theorem gauss_intervalIntegrable (a b : ℝ) :
    IntervalIntegrable (fun t : ℝ => Real.exp (-t ^ 2)) MeasureTheory.volume a b :=
  (Real.continuous_exp.comp (continuous_neg.comp (continuous_pow 2))).intervalIntegrable a b

theorem erf_monotone : Monotone erf := by
  intro a b hab
  have key : (∫ t in (0:ℝ)..a, Real.exp (-t ^ 2)) ≤ ∫ t in (0:ℝ)..b, Real.exp (-t ^ 2) := by
    have hadd := intervalIntegral.integral_add_adjacent_intervals
      (gauss_intervalIntegrable 0 a) (gauss_intervalIntegrable a b)
    have hnn : 0 ≤ ∫ t in a..b, Real.exp (-t ^ 2) :=
      intervalIntegral.integral_nonneg hab fun t _ => (Real.exp_pos _).le
    linarith
  have hc : 0 ≤ 2 / Real.sqrt Real.pi := by positivity
  exact mul_le_mul_of_nonneg_left key hc

theorem erf_strictMono : StrictMono erf := by
  intro a b hab
  have key : (∫ t in (0:ℝ)..a, Real.exp (-t ^ 2)) < ∫ t in (0:ℝ)..b, Real.exp (-t ^ 2) := by
    have hadd := intervalIntegral.integral_add_adjacent_intervals
      (gauss_intervalIntegrable 0 a) (gauss_intervalIntegrable a b)
    have hpos : 0 < ∫ t in a..b, Real.exp (-t ^ 2) :=
      intervalIntegral.intervalIntegral_pos_of_pos (gauss_intervalIntegrable a b)
        (fun t => Real.exp_pos _) hab
    linarith
  have hc : 0 < 2 / Real.sqrt Real.pi := by positivity
  simpa only [erf] using (mul_lt_mul_left hc).mpr key

theorem erf_nonneg {x : ℝ} (hx : 0 ≤ x) : 0 ≤ erf x := by
  have := erf_monotone hx
  rwa [erf_zero] at this

theorem erf_le_one (x : ℝ) : erf x ≤ 1 := by
  rcases le_or_lt x 0 with hx | hx
  · calc erf x ≤ erf 0 := erf_monotone hx
    _ = 0 := erf_zero
    _ ≤ 1 := zero_le_one
  · have hint : (∫ t in (0:ℝ)..x, Real.exp (-t ^ 2))
        ≤ ∫ t in Set.Ioi (0:ℝ), Real.exp (-t ^ 2) := by
      rw [intervalIntegral.integral_of_le hx.le]
      refine MeasureTheory.setIntegral_mono_set ?_ ?_ ?_
      · have h1 : MeasureTheory.IntegrableOn (fun t : ℝ => Real.exp (-1 * t ^ 2))
            (Set.Ioi 0) MeasureTheory.volume :=
          (integrable_exp_neg_mul_sq one_pos).integrableOn
        simpa only [neg_one_mul] using h1
      · exact Filter.Eventually.of_forall fun t => (Real.exp_pos _).le
      · exact MeasureTheory.ae_of_all _ fun t ht => Set.Ioc_subset_Ioi_self ht
    have hval : (∫ t in Set.Ioi (0:ℝ), Real.exp (-t ^ 2)) = Real.sqrt Real.pi / 2 := by
      have h := integral_gaussian_Ioi (1 : ℝ)
      simpa only [neg_one_mul, div_one] using h
    have hπ : 0 < Real.sqrt Real.pi := Real.sqrt_pos.mpr Real.pi_pos
    have : erf x ≤ 2 / Real.sqrt Real.pi * (Real.sqrt Real.pi / 2) := by
      refine mul_le_mul_of_nonneg_left ?_ (by positivity)
      rw [← hval]; exact hint
    calc erf x ≤ 2 / Real.sqrt Real.pi * (Real.sqrt Real.pi / 2) := this
    _ = 1 := by field_simp

theorem erf_neg (x : ℝ) : erf (-x) = - erf x := by
  have h : (∫ t in (0:ℝ)..(-x), Real.exp (-t ^ 2)) = - ∫ t in (0:ℝ)..x, Real.exp (-t ^ 2) := by
    have h2 := intervalIntegral.integral_comp_neg (a := (0:ℝ)) (b := -x)
      (fun s : ℝ => Real.exp (-s ^ 2))
    simp only [neg_sq, neg_neg, neg_zero] at h2
    rw [h2]
    exact intervalIntegral.integral_symm 0 x
  simp only [erf, h, mul_neg]

theorem neg_one_le_erf (x : ℝ) : -1 ≤ erf x := by
  have h := erf_le_one (-x)
  rw [erf_neg] at h
  linarith


/-- C1: the EUD reducer at `a = -∞` on the DVH `dose=[1,2]`,
`volumePercent=[50,50]` returns the maximum dose 2, although the minimum
dose is 1: `np.isinf(-inf)` is true, so the `-∞` branch (whose own comment
says "EUD = min dose", as does the spec) is dead and `-∞` falls into the
max-dose branch. -/
theorem C1_eud_neg_inf_returns_max_dose :
    calculate_equivalent_uniform_dose [1, 2] [50, 50] AVal.minf = Except.ok 2 ∧
    npMin [1, 2] = 1 ∧ npMax [1, 2] = 2 := by
  refine ⟨?_, ?_, ?_⟩
  · norm_num [calculate_equivalent_uniform_dose, AVal.isZero, AVal.isinf, npMax]
  · norm_num [npMin]
  · norm_num [npMax]

/-- C4 counterexample: a parameter mapping with the six keys
`td50, m, n, d50, gamma, endpoint` but no `seriality` key is accepted by
`add_organ_parameters` (the claim says it must fail with
`MissingParameter`), and the stored entry has no `seriality` key. -/
theorem C4_counterexample :
    add_organ_parameters [] "femur" params_six = .ok [("femur", params_six)] ∧
    params_six.lookup "seriality" = none := by
  constructor
  · rfl
  · rfl

/-- C4 amended: `add_organ_parameters` validates exactly the six keys
`td50, m, n, d50, gamma, endpoint` — `seriality` is not required — failing
with `MissingParameter` when one is absent, and on success stores the
supplied mapping unchanged as the registry entry. -/
theorem C4_addOrgan_validates_six_keys (registry : List (String × ParamDict))
    (organ : String) (parameters : ParamDict) :
    (add_organ_parameters registry organ parameters
        = .ok ((organ, parameters) :: registry)
      ↔ ∀ k ∈ required_params, (parameters.lookup k).isSome) ∧
    (add_organ_parameters registry organ parameters
        = .error .missingParameter
      ↔ ¬ ∀ k ∈ required_params, (parameters.lookup k).isSome) ∧
    "seriality" ∉ required_params := by
  by_cases h : ∀ k ∈ required_params, (parameters.lookup k).isSome
  · have hb : (required_params.all fun k => (parameters.lookup k).isSome) = true :=
      List.all_eq_true.mpr h
    unfold add_organ_parameters
    rw [if_pos hb]
    refine ⟨iff_of_true rfl h, iff_of_false (by simp) (not_not_intro h), by decide⟩
  · have hb : ¬ (required_params.all fun k => (parameters.lookup k).isSome) = true := by
      intro hc
      exact h (List.all_eq_true.mp hc)
    unfold add_organ_parameters
    rw [if_neg hb]
    refine ⟨iff_of_false (by simp) h, iff_of_true rfl h, by decide⟩

/-- C7 counterexample: at dose 100 and threshold 50 the overflow handlers of
`critical_volume_model` and `relative_seriality_model` return 0, not the
claimed threshold-relative value (which would be 1 since `¬(100 < 50)`). -/
theorem C7_counterexample :
    relative_seriality_on_overflow 100 50 ≠ (if (100:ℝ) < 50 then 0 else 1) ∧
    critical_volume_on_overflow 100 50 ≠ (if (100:ℝ) < 50 then 0 else 1) := by
  constructor <;>
    norm_num [relative_seriality_on_overflow, critical_volume_on_overflow]

/-- C7 amended: on overflow, `lyman_kutcher_burman`, `logistic_ntcp` and
`poisson_ntcp` degenerate to 0 below the threshold parameter and 1 above,
while `critical_volume_model` and `relative_seriality_model` degenerate to
0 unconditionally; no handler propagates a failure (each is a total
value-returning function). -/
theorem C7_overflow_handlers (dose td50 d50 : ℝ) :
    lyman_kutcher_burman_on_overflow dose td50 = (if dose < td50 then 0 else 1) ∧
    logistic_ntcp_on_overflow dose d50 = (if dose < d50 then 0 else 1) ∧
    poisson_ntcp_on_overflow dose d50 = (if dose < d50 then 0 else 1) ∧
    critical_volume_on_overflow dose d50 = 0 ∧
    relative_seriality_on_overflow dose d50 = 0 :=
  ⟨rfl, rfl, rfl, rfl, rfl⟩

/-- C8 counterexample: at `tcp = 1`, `totalNtcp = -1` the code returns
`+∞` for `ratio1`, not the quotient `1/(-1)` the claim's formula gives:
the guard is `ntcp_total > 0`, not `ntcp_total ≠ 0`. -/
theorem C8_counterexample :
    (calculate_therapeutic_ratio 1 (-1)).therapeutic_ratio_1
      ≠ (((1:ℝ) / (-1:ℝ) : ℝ) : EReal) := by
  have h : ¬ (0:ℝ) < -1 := by norm_num
  simp only [calculate_therapeutic_ratio, if_neg h]
  exact EReal.top_ne_coe _

/-- C8 amended: `ucp = tcp·(1-totalNtcp)` always; each ratio is the
quotient when `totalNtcp > 0` and `+∞` whenever `totalNtcp ≤ 0` (so in
particular at `totalNtcp = 0`). -/
theorem C8_therapeutic_ratio (tcp ntcp_total : ℝ) :
    (calculate_therapeutic_ratio tcp ntcp_total).uncomplicated_cure_probability
      = tcp * (1 - ntcp_total) ∧
    (0 < ntcp_total →
      (calculate_therapeutic_ratio tcp ntcp_total).therapeutic_ratio_1
          = ((tcp / ntcp_total : ℝ) : EReal) ∧
      (calculate_therapeutic_ratio tcp ntcp_total).therapeutic_ratio_2
          = ((tcp * (1 - ntcp_total) / ntcp_total : ℝ) : EReal)) ∧
    (ntcp_total ≤ 0 →
      (calculate_therapeutic_ratio tcp ntcp_total).therapeutic_ratio_1 = ⊤ ∧
      (calculate_therapeutic_ratio tcp ntcp_total).therapeutic_ratio_2 = ⊤) := by
  refine ⟨rfl, fun h => ?_, fun h => ?_⟩
  · simp [calculate_therapeutic_ratio, if_pos h]
  · simp [calculate_therapeutic_ratio, if_neg (not_lt.mpr h)]

/-- C8 witness: the spec's own example `therapeuticRatio(0.8, 0.0)` gives
`ratio1 = +∞` and `ucp = 0.8`. -/
theorem C8_witness :
    (calculate_therapeutic_ratio 0.8 0).therapeutic_ratio_1 = ⊤ ∧
    (calculate_therapeutic_ratio 0.8 0).uncomplicated_cure_probability = 0.8 := by
  have h := C8_therapeutic_ratio 0.8 0
  refine ⟨(h.2.2 le_rfl).1, ?_⟩
  rw [h.1]
  norm_num

/-- C9: `linear_quadratic_tcp` silently returns 0 for `n_fractions ≤ 0`,
while the BED reducer fails with `InvalidFraction` on the same condition. -/
theorem C9_lq_absorbs_nonpositive_fractions
    (dose alpha beta alpha_beta_ratio : ℝ) (n : ℤ) (hn : n ≤ 0) :
    linear_quadratic_tcp dose alpha beta n = 0 ∧
    calculate_biological_effective_dose dose alpha_beta_ratio n
      = .error .invalidFraction := by
  constructor
  · simp [linear_quadratic_tcp, hn]
  · simp [calculate_biological_effective_dose, hn]

/-- C9 witness at `n_fractions = 0`. -/
theorem C9_witness :
    linear_quadratic_tcp 10 1 1 0 = 0 ∧
    calculate_biological_effective_dose 10 3 0 = .error .invalidFraction :=
  C9_lq_absorbs_nonpositive_fractions 10 1 1 3 0 le_rfl

/-- C10: for every registered organ, both the DVH path and the uniform-dose
path score the critical-volume model with `v50` fixed at the constant 0.5
(the registry schema has no `v50` field at all), the uniform-dose path
passes volume fraction 1.0, and since `¬(1.0 < 0.5)` the
`volumeFraction < v50` cutoff branch is not taken there. -/
theorem C10_critical_volume_v50_constant (organ : String) (p : OrganParams)
    (h : organ_parameters.lookup organ = some p) (dose : ℝ)
    (dvh_dose dvh_vol : List ℝ) :
    calculate_ntcp_uniform_dose dose organ "critical_volume"
      = .ok (critical_volume_model dose 1.0 p.d50 0.5 p.gamma) ∧
    calculate_ntcp_from_dvh dvh_dose dvh_vol organ "critical_volume"
      = (maskSelect dvh_vol (dvh_dose.map fun d => decide (p.d50 < d))).map
          (fun va => critical_volume_model (npMax dvh_dose) (va.sum / 100)
            p.d50 0.5 p.gamma) ∧
    critical_volume_model dose 1.0 p.d50 0.5 p.gamma
      = clip01 (0.5 * (1 + erf ((dose * (1.0 / 0.5) ^ p.gamma - p.d50) / p.d50))) := by
  refine ⟨?_, ?_, ?_⟩
  · simp [calculate_ntcp_uniform_dose, h]
  · simp [calculate_ntcp_from_dvh, h]
  · rw [critical_volume_model, if_neg (by norm_num)]

/-- C10 witness at the registered organ `lung`. -/
theorem C10_witness :
    calculate_ntcp_uniform_dose 10 "lung" "critical_volume"
      = .ok (critical_volume_model 10 1.0 20 0.5 1.0) := by
  have h : organ_parameters.lookup "lung"
      = some ⟨24.5, 0.18, 0.87, 20, 1.0, "pneumonitis", 0.0⟩ := rfl
  exact (C10_critical_volume_v50_constant "lung" _ h 10 [] []).1

theorem maskSelect_ne_shape (vals : List ℝ) (mask : List Bool) :
    maskSelect vals mask ≠ Except.error CalcError.shapeMismatch := by
  unfold maskSelect
  split
  · simp
  · simp

theorem fancyIndex_ne_shape (vals : List ℝ) (idx : List ℕ) :
    fancyIndex vals idx ≠ Except.error CalcError.shapeMismatch := by
  unfold fancyIndex
  split
  · simp
  · simp

theorem npAverageE_ne_shape (vals weights : List ℝ) :
    npAverageE vals weights ≠ Except.error CalcError.shapeMismatch := by
  unfold npAverageE
  split
  · simp
  · simp

theorem except_bind_ne_shape {α β : Type} {e : Except CalcError α}
    {f : α → Except CalcError β}
    (he : e ≠ Except.error CalcError.shapeMismatch)
    (hf : ∀ a, f a ≠ Except.error CalcError.shapeMismatch) :
    (e >>= f) ≠ Except.error CalcError.shapeMismatch := by
  cases e with
  | ok a =>
    show f a ≠ Except.error CalcError.shapeMismatch
    exact hf a
  | error c =>
    intro hc
    have hc2 : (Except.error c : Except CalcError β)
        = Except.error CalcError.shapeMismatch := hc
    injection hc2 with hcc
    exact he (by rw [hcc])

theorem except_ite_ne_shape {α : Type} {c : Prop} [Decidable c]
    {e1 e2 : Except CalcError α}
    (h1 : e1 ≠ Except.error CalcError.shapeMismatch)
    (h2 : e2 ≠ Except.error CalcError.shapeMismatch) :
    (if c then e1 else e2) ≠ Except.error CalcError.shapeMismatch := by
  split
  · exact h1
  · exact h2

theorem pure_ne_shape {α : Type} (a : α) :
    (pure a : Except CalcError α) ≠ Except.error CalcError.shapeMismatch :=
  fun hc => Except.noConfusion hc

theorem vxLoop_ne_shape (dose vol : List ℝ) (lvls : List ℝ) :
    vxLoop dose vol lvls ≠ Except.error CalcError.shapeMismatch := by
  induction lvls with
  | nil => simp [vxLoop]
  | cons lv lvs ih =>
    refine except_bind_ne_shape (maskSelect_ne_shape _ _) fun sel => ?_
    exact except_bind_ne_shape ih fun rest => pure_ne_shape _

theorem dxLoop_ne_shape (cumn sorted_doses : List ℝ) (ps : List ℝ) :
    dxLoop cumn sorted_doses ps ≠ Except.error CalcError.shapeMismatch := by
  induction ps with
  | nil => simp [dxLoop]
  | cons p ps ih =>
    unfold dxLoop
    refine except_bind_ne_shape ?_ fun v => ?_
    · refine except_ite_ne_shape (except_ite_ne_shape ?_ ?_) ?_
      · simp
      · simp
      · simp
    · exact except_bind_ne_shape ih fun rest => pure_ne_shape _

theorem dx_ne_shape (dose vol : List ℝ) (ps : List ℝ) :
    calculate_dx_values dose vol ps ≠ Except.error CalcError.shapeMismatch := by
  unfold calculate_dx_values
  refine except_bind_ne_shape (fancyIndex_ne_shape _ _) fun sd => ?_
  refine except_bind_ne_shape (fancyIndex_ne_shape _ _) fun sv => ?_
  split
  · simp
  · exact dxLoop_ne_shape _ _ _

/-- C3 counterexample: on the unequal-length input `dose=[1,2]`,
`volumePercent=[50]`, the Vx reducer does not fail with `ShapeMismatch` —
it fails with numpy's boolean-mask `IndexError` (there is no length
validation in the source). -/
theorem C3_counterexample :
    calculate_vx_values [1, 2] [50] [20] = Except.error CalcError.indexError ∧
    CalcError.indexError ≠ CalcError.shapeMismatch := by
  constructor
  · rfl
  · decide

/-- C3 amended: on unequal-length inputs, only the dose-statistics and EUD
reducers fail with `ShapeMismatch`; the Dx, Vx, conformity, homogeneity and
DVH-interpolation reducers perform no such validation (a mismatch there
surfaces, if at all, as an indexing or weights error). -/
theorem C3_shape_validation (dose vol : List ℝ)
    (hne : dose.length ≠ vol.length) :
    calculate_dose_statistics dose vol = Except.error CalcError.shapeMismatch ∧
    (∀ a, calculate_equivalent_uniform_dose dose vol a
      = Except.error CalcError.shapeMismatch) ∧
    (∀ lvls, calculate_vx_values dose vol lvls
      ≠ Except.error CalcError.shapeMismatch) ∧
    (∀ ps, calculate_dx_values dose vol ps
      ≠ Except.error CalcError.shapeMismatch) ∧
    (∀ pd tol, calculate_conformity_index dose vol pd tol
      ≠ Except.error CalcError.shapeMismatch) ∧
    calculate_homogeneity_index dose vol ≠ Except.error CalcError.shapeMismatch ∧
    (∀ nd, interpolate_dvh dose vol nd ≠ Except.error CalcError.shapeMismatch) := by
  refine ⟨?_, fun a => ?_, fun lvls => vxLoop_ne_shape dose vol lvls,
    fun ps => dx_ne_shape dose vol ps, fun pd tol => ?_, ?_, fun nd => ?_⟩
  · unfold calculate_dose_statistics
    rw [if_neg hne]
  · unfold calculate_equivalent_uniform_dose
    rw [if_neg hne]
  · unfold calculate_conformity_index
    exact except_bind_ne_shape (maskSelect_ne_shape _ _) fun covered =>
      pure_ne_shape _
  · unfold calculate_homogeneity_index
    refine except_bind_ne_shape (dx_ne_shape _ _ _) fun dx => ?_
    exact except_bind_ne_shape (npAverageE_ne_shape _ _) fun mean =>
      pure_ne_shape _
  · unfold interpolate_dvh
    refine except_bind_ne_shape (fancyIndex_ne_shape _ _) fun sd => ?_
    refine except_bind_ne_shape (fancyIndex_ne_shape _ _) fun sv => ?_
    exact except_ite_ne_shape (by simp) (by simp)

/-- C3 witness at `dose=[1,2]`, `volumePercent=[50]`. -/
theorem C3_witness :
    calculate_dose_statistics [1, 2] [50] = Except.error CalcError.shapeMismatch ∧
    calculate_vx_values [1, 2] [50] [20] ≠ Except.error CalcError.shapeMismatch := by
  have h := C3_shape_validation [1, 2] [50] (by simp)
  exact ⟨h.1, h.2.2.1 [20]⟩

theorem stdNormalCDF_sqrt_two_mul (t : ℝ) :
    stdNormalCDF (Real.sqrt 2 * t) = 0.5 * (1 + erf t) := by
  unfold stdNormalCDF
  have h2 : Real.sqrt 2 ≠ 0 := by positivity
  rw [mul_div_cancel_left₀ t h2]
  ring

theorem one_div_sqrt_two_lt_one : (1:ℝ) / Real.sqrt 2 < 1 := by
  have h1 : (1:ℝ) < Real.sqrt 2 := by
    calc (1:ℝ) = Real.sqrt 1 := (Real.sqrt_one).symm
    _ < Real.sqrt 2 := Real.sqrt_lt_sqrt (by norm_num) (by norm_num)
  rw [div_lt_one (by positivity)]
  exact h1

/-- C2 counterexample: at `dose=2, d50=1, γ=1, s=0` the code's probability
`0.5·(1+erf(1))` differs from the claim's `Φ(1) = 0.5·(1+erf(1/√2))` — the
code does not divide the argument by `√2`, so it computes `Φ(√2·t)`, not
`Φ(t)`. -/
theorem C2_counterexample :
    relative_seriality_model 2 1 1 0 ≠ clip01 (stdNormalCDF ((2 - 1) / (1 * 1))) := by
  have harg : ((2:ℝ) - 1) / (1 * 1) = 1 := by norm_num
  have hbound1 := erf_le_one 1
  have hbound2 := neg_one_le_erf 1
  have hbound3 := erf_le_one (1 / Real.sqrt 2)
  have hbound4 := neg_one_le_erf (1 / Real.sqrt 2)
  have hL : relative_seriality_model 2 1 1 0 = 0.5 * (1 + erf 1) := by
    simp only [relative_seriality_model, harg]
    rw [if_pos trivial]
    exact clip01_of_mem (by linarith) (by linarith)
  have hR : clip01 (stdNormalCDF ((2 - 1) / (1 * 1)))
      = (1 + erf (1 / Real.sqrt 2)) / 2 := by
    rw [harg]
    unfold stdNormalCDF
    exact clip01_of_mem (by linarith) (by linarith)
  rw [hL, hR]
  have hlt : erf (1 / Real.sqrt 2) < erf 1 := erf_strictMono one_div_sqrt_two_lt_one
  intro heq
  linarith

/-- C2 amended: `relative_seriality_model` computes
`p = Φ(√2·(dose−d50)/(γ·d50))` — equivalently `(1+erf((dose−d50)/(γ·d50)))/2`,
not `Φ((dose−d50)/(γ·d50))` — then returns `p` when `s = 0`,
`1−(1−p)^dose` when `s = 1`, and `s·(1−(1−p)^dose)+(1−s)·p` otherwise,
clipped to `[0,1]`. -/
theorem C2_relative_seriality_refines_spec (dose d50 gamma s : ℝ) :
    relative_seriality_model dose d50 gamma s
      = clip01 (specRelativeSeriality dose d50 gamma s) := by
  simp only [relative_seriality_model, specRelativeSeriality,
    stdNormalCDF_sqrt_two_mul]

theorem except_ok_bind {α β : Type} (a : α) (f : α → Except CalcError β) :
    (Except.ok a >>= f) = f a := rfl

theorem npArgmin_lt_length : ∀ (l : List ℝ), l ≠ [] → npArgmin l < l.length := by
  intro l
  induction l with
  | nil => intro h; exact absurd rfl h
  | cons x xs ih =>
    intro _
    cases xs with
    | nil => simp [npArgmin]
    | cons y ys =>
      rw [npArgmin]
      split
      · have := ih (by simp)
        simpa using Nat.succ_lt_succ this
      · simp

theorem npArgmin_le : ∀ (l : List ℝ) (j : ℕ), j < l.length →
    l.getD (npArgmin l) 0 ≤ l.getD j 0 := by
  intro l
  induction l with
  | nil => intro j hj; simp at hj
  | cons x xs ih =>
    intro j hj
    cases xs with
    | nil =>
      have hj0 : j = 0 := Nat.lt_one_iff.mp (by simpa using hj)
      subst hj0
      simp [npArgmin]
    | cons y ys =>
      rw [npArgmin]
      split
      · rename_i hc
        rw [List.getD_cons_succ]
        cases j with
        | zero =>
          rw [List.getD_cons_zero]
          exact le_of_lt hc
        | succ j' =>
          rw [List.getD_cons_succ]
          exact ih j' (by simpa using hj)
      · rename_i hc
        rw [List.getD_cons_zero]
        cases j with
        | zero => rw [List.getD_cons_zero]
        | succ j' =>
          rw [List.getD_cons_succ]
          exact le_trans (not_lt.mp hc) (ih j' (by simpa using hj))

theorem getD_map_at (f : ℝ → ℝ) (l : List ℝ) (k : ℕ) (hk : k < l.length) :
    (l.map f).getD k 0 = f (l.getD k 0) := by
  rw [List.getD_eq_getElem?_getD, List.getD_eq_getElem?_getD, List.getElem?_map,
    List.getElem?_eq_getElem hk]
  simp

theorem tcpModelValue_ok (model : String) (p : TumorParams) (dose : ℝ)
    (h : model ∈ supported_tcp_models) :
    tcpModelValue model p dose = Except.ok (tcpModelFn model p dose) := by
  simp only [supported_tcp_models, List.mem_cons, List.mem_singleton] at h
  rcases h with rfl | rfl | rfl | rfl | hf
  · rfl
  · rfl
  · rfl
  · rfl
  · simp at hf

theorem tcpLoop_eq_zipWith (model : String) (p : TumorParams)
    (h : model ∈ supported_tcp_models) :
    ∀ (dose vol : List ℝ), dose.length = vol.length →
      tcpLoop model p dose vol
        = Except.ok (List.zipWith (fun d v => tcpModelFn model p d * (v / 100)) dose vol) := by
  intro dose
  induction dose with
  | nil =>
    intro vol hlen
    cases vol with
    | nil => rfl
    | cons v vs => simp at hlen
  | cons d ds ih =>
    intro vol hlen
    cases vol with
    | nil => simp at hlen
    | cons v vs =>
      have hlen' : ds.length = vs.length := by simpa using hlen
      rw [tcpLoop, tcpModelValue_ok model p d h, except_ok_bind, ih vs hlen',
        except_ok_bind]
      rfl

/-- C5: on equal-length nonempty DVHs, for a registered tumor type and a
supported model, `calculate_tcp_from_dvh` returns the weighted terms
`modelValue(doseᵢ)·(volumePercentᵢ/100)` as `tcp_values`; `total_tcp` is
their sum, `mean_tcp` their arithmetic mean, and `tcp_d95`/`tcp_d50` are
the weighted terms at a bin whose `volumePercent` is nearest to 95/50
(first such bin). -/
theorem C5_dvh_tcp (dose vol : List ℝ) (tumor_type model : String)
    (p : TumorParams) (hlen : dose.length = vol.length) (hpos : vol ≠ [])
    (hlook : tumor_parameters.lookup tumor_type = some p)
    (hmodel : model ∈ supported_tcp_models) :
    ∃ r, calculate_tcp_from_dvh dose vol tumor_type model = Except.ok r ∧
      r.tcp_values
        = List.zipWith (fun d v => tcpModelFn model p d * (v / 100)) dose vol ∧
      r.total_tcp = r.tcp_values.sum ∧
      r.mean_tcp = r.tcp_values.sum / r.tcp_values.length ∧
      (∃ i, i < vol.length ∧
        (∀ j, j < vol.length → |vol.getD i 0 - 95| ≤ |vol.getD j 0 - 95|) ∧
        r.tcp_d95 = r.tcp_values.getD i 0) ∧
      (∃ i, i < vol.length ∧
        (∀ j, j < vol.length → |vol.getD i 0 - 50| ≤ |vol.getD j 0 - 50|) ∧
        r.tcp_d50 = r.tcp_values.getD i 0) := by
  have hloop := tcpLoop_eq_zipWith model p hmodel dose vol hlen
  set L := List.zipWith (fun d v => tcpModelFn model p d * (v / 100)) dose vol
    with hLdef
  have hLlen : L.length = vol.length := by
    rw [hLdef, List.length_zipWith, hlen, min_self]
  have hmapne95 : (vol.map fun v => |v - 95|) ≠ [] := by
    intro hc
    exact hpos (List.map_eq_nil_iff.mp hc)
  have hmapne50 : (vol.map fun v => |v - 50|) ≠ [] := by
    intro hc
    exact hpos (List.map_eq_nil_iff.mp hc)
  have hidx95 : npArgmin (vol.map fun v => |v - 95|) < vol.length := by
    have := npArgmin_lt_length _ hmapne95
    simpa using this
  have hidx50 : npArgmin (vol.map fun v => |v - 50|) < vol.length := by
    have := npArgmin_lt_length _ hmapne50
    simpa using this
  have hidx95L : npArgmin (vol.map fun v => |v - 95|) < L.length := by
    rw [hLlen]; exact hidx95
  have hidx50L : npArgmin (vol.map fun v => |v - 50|) < L.length := by
    rw [hLlen]; exact hidx50
  have hcalc : calculate_tcp_from_dvh dose vol tumor_type model
      = Except.ok
          ⟨L.sum, L.sum / L.length,
            if npArgmin (vol.map fun v => |v - 95|) < L.length then
              L.getD (npArgmin (vol.map fun v => |v - 95|)) 0
            else 0,
            if npArgmin (vol.map fun v => |v - 50|) < L.length then
              L.getD (npArgmin (vol.map fun v => |v - 50|)) 0
            else 0,
            L⟩ := by
    simp only [calculate_tcp_from_dvh, hlook, hloop, except_ok_bind]
    rfl
  refine ⟨_, hcalc, rfl, rfl, rfl, ?_, ?_⟩
  · refine ⟨npArgmin (vol.map fun v => |v - 95|), hidx95, ?_, ?_⟩
    · intro j hj
      have hmin := npArgmin_le (vol.map fun v => |v - 95|) j (by simpa using hj)
      rwa [getD_map_at _ _ _ hidx95, getD_map_at _ _ _ hj] at hmin
    · show (if npArgmin (vol.map fun v => |v - 95|) < L.length then
          L.getD (npArgmin (vol.map fun v => |v - 95|)) 0 else 0) = _
      rw [if_pos hidx95L]
  · refine ⟨npArgmin (vol.map fun v => |v - 50|), hidx50, ?_, ?_⟩
    · intro j hj
      have hmin := npArgmin_le (vol.map fun v => |v - 50|) j (by simpa using hj)
      rwa [getD_map_at _ _ _ hidx50, getD_map_at _ _ _ hj] at hmin
    · show (if npArgmin (vol.map fun v => |v - 50|) < L.length then
          L.getD (npArgmin (vol.map fun v => |v - 50|)) 0 else 0) = _
      rw [if_pos hidx50L]

/-- C5 witness: the single-bin DVH `([70], [100])` for `prostate`/`poisson`. -/
theorem C5_witness :
    ∃ r, calculate_tcp_from_dvh [70] [100] "prostate" "poisson" = Except.ok r ∧
      r.total_tcp = r.tcp_values.sum := by
  obtain ⟨r, h1, _, h3, _⟩ := C5_dvh_tcp [70] [100] "prostate" "poisson"
    ⟨70, 2.0, 0.15, 0.05⟩ rfl (by simp) rfl (by simp [supported_tcp_models])
  exact ⟨r, h1, h3⟩

theorem recip_one_add_exp_mono {u v : ℝ} (h : v ≤ u) :
    clip01 (1 / (1 + Real.exp u)) ≤ clip01 (1 / (1 + Real.exp v)) := by
  apply clip01_mono
  apply one_div_le_one_div_of_le
  · positivity
  · linarith [Real.exp_le_exp.mpr h]

theorem half_erf_clip_mono {a b : ℝ} (h : a ≤ b) :
    clip01 (0.5 * (1 + erf a)) ≤ clip01 (0.5 * (1 + erf b)) := by
  apply clip01_mono
  have := erf_monotone h
  linarith

theorem rpow_le_rpow_pair {b1 b2 e1 e2 : ℝ} (hb2 : 0 ≤ b2) (hb : b2 ≤ b1)
    (hb1 : b1 ≤ 1) (he1 : 0 ≤ e1) (he : e1 ≤ e2) : b2 ^ e2 ≤ b1 ^ e1 := by
  rcases eq_or_lt_of_le hb2 with heq | hpos
  · rcases eq_or_lt_of_le (he1.trans he) with he2 | he2pos
    · have he10 : e1 = 0 := le_antisymm (he.trans he2.symm.le) he1
      rw [← heq, ← he2, he10, Real.rpow_zero, Real.rpow_zero]
    · rw [← heq, Real.zero_rpow (ne_of_gt he2pos)]
      exact Real.rpow_nonneg (heq ▸ hb) e1
  · calc b2 ^ e2 ≤ b2 ^ e1 :=
        Real.rpow_le_rpow_of_exponent_ge hpos (hb.trans hb1) he
    _ ≤ b1 ^ e1 := Real.rpow_le_rpow hb2 hb he1

theorem poisson_tcp_mono {td50 g50 : ℝ} (h50 : 0 < td50) (hg : 0 ≤ g50)
    {x y : ℝ} (hxy : x ≤ y) : poisson_tcp x td50 g50 ≤ poisson_tcp y td50 g50 := by
  unfold poisson_tcp
  apply recip_one_add_exp_mono
  rw [div_le_div_iff₀ h50 h50]
  nlinarith [mul_nonneg hg (sub_nonneg.mpr hxy)]

theorem logistic_clip_mono {d50 k : ℝ} (hk : 0 ≤ k) {x y : ℝ} (hxy : x ≤ y) :
    clip01 (1 / (1 + Real.exp (-k * (x - d50))))
      ≤ clip01 (1 / (1 + Real.exp (-k * (y - d50)))) := by
  apply recip_one_add_exp_mono
  nlinarith [mul_nonneg hk (sub_nonneg.mpr hxy)]

theorem linear_quadratic_tcp_mono {alpha beta : ℝ} (n : ℤ) (ha : 0 ≤ alpha)
    (hb : 0 ≤ beta) {x y : ℝ} (hx : 0 ≤ x) (hxy : x ≤ y) :
    linear_quadratic_tcp x alpha beta n ≤ linear_quadratic_tcp y alpha beta n := by
  unfold linear_quadratic_tcp
  split
  · exact le_refl 0
  · apply clip01_mono
    have hexp : Real.exp (-alpha * y - beta * y ^ 2)
        ≤ Real.exp (-alpha * x - beta * x ^ 2) := by
      apply Real.exp_le_exp.mpr
      nlinarith [mul_nonneg ha (sub_nonneg.mpr hxy),
        mul_nonneg hb (sub_nonneg.mpr (pow_le_pow_left₀ hx hxy 2))]
    linarith

theorem webb_nahum_tcp_mono {d50 gamma rho : ℝ} (h50 : 0 < d50) (hg : 0 ≤ gamma)
    (hrho : 0 ≤ rho) {x y : ℝ} (hx : 0 ≤ x) (hxy : x ≤ y) :
    webb_nahum_tcp x d50 gamma rho ≤ webb_nahum_tcp y d50 gamma rho := by
  unfold webb_nahum_tcp
  apply clip01_mono
  apply Real.exp_le_exp.mpr
  have hu : (x / d50) ^ gamma ≤ (y / d50) ^ gamma :=
    Real.rpow_le_rpow (div_nonneg hx h50.le)
      ((div_le_div_iff_of_pos_right h50).mpr hxy) hg
  have hln : (0:ℝ) ≤ Real.log 2 := Real.log_nonneg one_le_two
  have hsf : Real.exp (-Real.log 2 * (y / d50) ^ gamma)
      ≤ Real.exp (-Real.log 2 * (x / d50) ^ gamma) := by
    apply Real.exp_le_exp.mpr
    nlinarith
  nlinarith

theorem lkb_mono {td50 m n : ℝ} (h50 : 0 < td50) (hm : 0 < m)
    {x y : ℝ} (hxy : x ≤ y) :
    lyman_kutcher_burman x td50 m n ≤ lyman_kutcher_burman y td50 m n := by
  unfold lyman_kutcher_burman
  apply half_erf_clip_mono
  have hmt : (0:ℝ) < m * td50 := mul_pos hm h50
  have h1 : (x - td50) / (m * td50) ≤ (y - td50) / (m * td50) :=
    (div_le_div_iff_of_pos_right hmt).mpr (by linarith)
  exact (div_le_div_iff_of_pos_right (by positivity : (0:ℝ) < Real.sqrt 2)).mpr h1

theorem critical_volume_mono {vf d50 v50 gamma : ℝ} (h50 : 0 < d50)
    (hvf : 0 ≤ vf) (hv50 : 0 < v50) {x y : ℝ} (hxy : x ≤ y) :
    critical_volume_model x vf d50 v50 gamma
      ≤ critical_volume_model y vf d50 v50 gamma := by
  unfold critical_volume_model
  split
  · exact le_refl 0
  · apply half_erf_clip_mono
    have hc : (0:ℝ) ≤ (vf / v50) ^ gamma :=
      Real.rpow_nonneg (div_nonneg hvf hv50.le) gamma
    apply (div_le_div_iff_of_pos_right h50).mpr
    have := mul_le_mul_of_nonneg_right hxy hc
    linarith

theorem poisson_ntcp_mono {d50 gamma : ℝ} (h50 : 0 < d50) (hg : 0 ≤ gamma)
    {x y : ℝ} (hxy : x ≤ y) :
    poisson_ntcp x d50 gamma ≤ poisson_ntcp y d50 gamma := by
  unfold poisson_ntcp
  apply half_erf_clip_mono
  apply (div_le_div_iff_of_pos_right (by positivity : (0:ℝ) < Real.sqrt 2)).mpr
  have hdiv : x / d50 ≤ y / d50 := (div_le_div_iff_of_pos_right h50).mpr hxy
  nlinarith

theorem relative_seriality_mono {d50 gamma s : ℝ} (h50 : 0 < d50)
    (hg : 0 < gamma) (hs0 : 0 ≤ s) (hs1 : s ≤ 1) {x y : ℝ} (hx : 0 ≤ x)
    (hxy : x ≤ y) :
    relative_seriality_model x d50 gamma s
      ≤ relative_seriality_model y d50 gamma s := by
  have hgd : (0:ℝ) < gamma * d50 := mul_pos hg h50
  have hex := erf_le_one ((x - d50) / (gamma * d50))
  have hex' := neg_one_le_erf ((x - d50) / (gamma * d50))
  have hey := erf_le_one ((y - d50) / (gamma * d50))
  have hey' := neg_one_le_erf ((y - d50) / (gamma * d50))
  have hpmono : 0.5 * (1 + erf ((x - d50) / (gamma * d50)))
      ≤ 0.5 * (1 + erf ((y - d50) / (gamma * d50))) := by
    have := erf_monotone
      ((div_le_div_iff_of_pos_right hgd).mpr (by linarith : x - d50 ≤ y - d50))
    linarith
  have hganti : (1 - 0.5 * (1 + erf ((y - d50) / (gamma * d50)))) ^ y
      ≤ (1 - 0.5 * (1 + erf ((x - d50) / (gamma * d50)))) ^ x :=
    rpow_le_rpow_pair (by linarith) (by linarith) (by linarith) hx hxy
  simp only [relative_seriality_model]
  apply clip01_mono
  split_ifs with h1 h2
  · exact hpmono
  · linarith
  · have t1 : s * (1 - (1 - 0.5 * (1 + erf ((x - d50) / (gamma * d50)))) ^ x)
        ≤ s * (1 - (1 - 0.5 * (1 + erf ((y - d50) / (gamma * d50)))) ^ y) :=
      mul_le_mul_of_nonneg_left (by linarith) hs0
    have t2 : (1 - s) * (0.5 * (1 + erf ((x - d50) / (gamma * d50))))
        ≤ (1 - s) * (0.5 * (1 + erf ((y - d50) / (gamma * d50)))) :=
      mul_le_mul_of_nonneg_left hpmono (by linarith)
    linarith

/-- C6 counterexample: `logistic_tcp` with the finite inputs `d50 = 0`,
`k = -1` is strictly decreasing from dose 0 to dose 1, so the model
functions are not non-decreasing in dose for arbitrary finite parameters. -/
theorem C6_counterexample :
    ¬ (logistic_tcp 0 0 (-1) ≤ logistic_tcp 1 0 (-1)) := by
  have h1exp : (1:ℝ) < Real.exp 1 := by linarith [Real.add_one_le_exp (1:ℝ)]
  have hv0 : logistic_tcp 0 0 (-1) = 1 / 2 := by
    unfold logistic_tcp
    have harg : -(-1) * ((0:ℝ) - 0) = 0 := by norm_num
    rw [harg, Real.exp_zero, clip01_of_mem (by norm_num) (by norm_num)]
    norm_num
  have hv1 : logistic_tcp 1 0 (-1) = 1 / (1 + Real.exp 1) := by
    unfold logistic_tcp
    have harg : -(-1) * ((1:ℝ) - 0) = 1 := by norm_num
    rw [harg]
    apply clip01_of_mem
    · positivity
    · rw [div_le_one (by positivity)]
      linarith
  rw [hv0, hv1]
  push_neg
  rw [div_lt_div_iff₀ (by positivity) (by norm_num : (0:ℝ) < 2)]
  linarith

/-- C6 amended: every TCP and NTCP model function returns a value in `[0,1]`
for all (finite) real inputs, and is non-decreasing in `dose` under the
natural sign conditions on its parameters — positive reference dose
`td50`/`d50` (and `m > 0`, `v50 > 0`), nonnegative slope parameters
(`gamma50`, `gamma`, `k`, `alpha`, `beta`, clonogen density, volume
fraction), seriality `s ∈ [0,1]`, and nonnegative doses for the
linear-quadratic, Webb-Nahum and relative-seriality models.  Without these
sign conditions monotonicity fails (see the counterexample). -/
theorem C6_models_bounded_and_monotone :
    (∀ d t g : ℝ, 0 ≤ poisson_tcp d t g ∧ poisson_tcp d t g ≤ 1) ∧
    (∀ t g : ℝ, 0 < t → 0 ≤ g → ∀ x y : ℝ, x ≤ y →
      poisson_tcp x t g ≤ poisson_tcp y t g) ∧
    (∀ (d a b : ℝ) (n : ℤ), 0 ≤ linear_quadratic_tcp d a b n ∧
      linear_quadratic_tcp d a b n ≤ 1) ∧
    (∀ (a b : ℝ) (n : ℤ), 0 ≤ a → 0 ≤ b → ∀ x y : ℝ, 0 ≤ x → x ≤ y →
      linear_quadratic_tcp x a b n ≤ linear_quadratic_tcp y a b n) ∧
    (∀ d t g r : ℝ, 0 ≤ webb_nahum_tcp d t g r ∧ webb_nahum_tcp d t g r ≤ 1) ∧
    (∀ t g r : ℝ, 0 < t → 0 ≤ g → 0 ≤ r → ∀ x y : ℝ, 0 ≤ x → x ≤ y →
      webb_nahum_tcp x t g r ≤ webb_nahum_tcp y t g r) ∧
    (∀ d t k : ℝ, 0 ≤ logistic_tcp d t k ∧ logistic_tcp d t k ≤ 1) ∧
    (∀ t k : ℝ, 0 ≤ k → ∀ x y : ℝ, x ≤ y →
      logistic_tcp x t k ≤ logistic_tcp y t k) ∧
    (∀ d t m n : ℝ, 0 ≤ lyman_kutcher_burman d t m n ∧
      lyman_kutcher_burman d t m n ≤ 1) ∧
    (∀ t m n : ℝ, 0 < t → 0 < m → ∀ x y : ℝ, x ≤ y →
      lyman_kutcher_burman x t m n ≤ lyman_kutcher_burman y t m n) ∧
    (∀ d vf t v g : ℝ, 0 ≤ critical_volume_model d vf t v g ∧
      critical_volume_model d vf t v g ≤ 1) ∧
    (∀ vf t v g : ℝ, 0 < t → 0 ≤ vf → 0 < v → ∀ x y : ℝ, x ≤ y →
      critical_volume_model x vf t v g ≤ critical_volume_model y vf t v g) ∧
    (∀ d t g s : ℝ, 0 ≤ relative_seriality_model d t g s ∧
      relative_seriality_model d t g s ≤ 1) ∧
    (∀ t g s : ℝ, 0 < t → 0 < g → 0 ≤ s → s ≤ 1 → ∀ x y : ℝ, 0 ≤ x → x ≤ y →
      relative_seriality_model x t g s ≤ relative_seriality_model y t g s) ∧
    (∀ d t k : ℝ, 0 ≤ logistic_ntcp d t k ∧ logistic_ntcp d t k ≤ 1) ∧
    (∀ t k : ℝ, 0 ≤ k → ∀ x y : ℝ, x ≤ y →
      logistic_ntcp x t k ≤ logistic_ntcp y t k) ∧
    (∀ d t g : ℝ, 0 ≤ poisson_ntcp d t g ∧ poisson_ntcp d t g ≤ 1) ∧
    (∀ t g : ℝ, 0 < t → 0 ≤ g → ∀ x y : ℝ, x ≤ y →
      poisson_ntcp x t g ≤ poisson_ntcp y t g) := by
  refine ⟨?_, ?_, ?_, ?_, ?_, ?_, ?_, ?_, ?_, ?_, ?_, ?_, ?_, ?_, ?_, ?_, ?_, ?_⟩
  · intro d t g
    exact ⟨clip01_nonneg _, clip01_le_one _⟩
  · intro t g ht hg x y hxy
    exact poisson_tcp_mono ht hg hxy
  · intro d a b n
    unfold linear_quadratic_tcp
    split
    · exact ⟨le_refl 0, zero_le_one⟩
    · exact ⟨clip01_nonneg _, clip01_le_one _⟩
  · intro a b n ha hb x y hx hxy
    exact linear_quadratic_tcp_mono n ha hb hx hxy
  · intro d t g r
    exact ⟨clip01_nonneg _, clip01_le_one _⟩
  · intro t g r ht hg hr x y hx hxy
    exact webb_nahum_tcp_mono ht hg hr hx hxy
  · intro d t k
    exact ⟨clip01_nonneg _, clip01_le_one _⟩
  · intro t k hk x y hxy
    unfold logistic_tcp
    exact logistic_clip_mono hk hxy
  · intro d t m n
    exact ⟨clip01_nonneg _, clip01_le_one _⟩
  · intro t m n ht hm x y hxy
    exact lkb_mono ht hm hxy
  · intro d vf t v g
    unfold critical_volume_model
    split
    · exact ⟨le_refl 0, zero_le_one⟩
    · exact ⟨clip01_nonneg _, clip01_le_one _⟩
  · intro vf t v g ht hvf hv x y hxy
    exact critical_volume_mono ht hvf hv hxy
  · intro d t g s
    simp only [relative_seriality_model]
    exact ⟨clip01_nonneg _, clip01_le_one _⟩
  · intro t g s ht hg hs0 hs1 x y hx hxy
    exact relative_seriality_mono ht hg hs0 hs1 hx hxy
  · intro d t k
    exact ⟨clip01_nonneg _, clip01_le_one _⟩
  · intro t k hk x y hxy
    unfold logistic_ntcp
    exact logistic_clip_mono hk hxy
  · intro d t g
    exact ⟨clip01_nonneg _, clip01_le_one _⟩
  · intro t g ht hg x y hxy
    exact poisson_ntcp_mono ht hg hxy

/-- C6 witness: the Poisson TCP and relative-seriality monotonicity parts
at concrete admissible parameters. -/
theorem C6_witness :
    poisson_tcp 0 1 0 ≤ poisson_tcp 1 1 0 ∧
    relative_seriality_model 0 1 1 1 ≤ relative_seriality_model 1 1 1 1 := by
  have h := C6_models_bounded_and_monotone
  refine ⟨h.2.1 1 0 zero_lt_one (le_refl 0) 0 1 zero_le_one, ?_⟩
  exact h.2.2.2.2.2.2.2.2.2.2.2.2.2.1 1 1 1 zero_lt_one zero_lt_one
    zero_le_one le_rfl 0 1 (le_refl 0) zero_le_one
